import Mathlib

/-!
# Verification of the lenilani-video-automation pipeline orchestrator

Shallow embedding of the repository's pipeline orchestrator
(`src/workflows/video_generator.py`), the external-call wrappers
(`src/services/veo_client.py`, `src/services/google_drive_uploader.py`,
`src/services/claude_client.py`, `src/utils/video_composer.py`) and the
persistent retry script (`create_video_with_retry.py`).

External collaborators (hosted APIs, the media-processing binary, the
filesystem) are modelled as oracle inputs: each call site receives the
collaborator's reply (a stage-result dictionary, a raised-exception
message, an exit code, ...) from an environment record.  The filesystem
is a list of existing paths.  Python dictionaries with ad-hoc optional
keys are modelled as structures whose fields are `Option`-valued; a
missing key is `none` (Python `dict.get` returns `None`).
-/

/-! ## Python string helpers -/

/-- The characters Python's `str.strip` and `\s` treat as whitespace
(ASCII fragment, which covers every string the code manipulates). -/
def pyWhitespace (c : Char) : Bool :=
  c = ' ' || c = '\t' || c = '\n' || c = '\r' || c = '\x0b' || c = '\x0c'

/-- Python `str.strip()` on a character list. -/
def stripChars (l : List Char) : List Char :=
  ((l.dropWhile pyWhitespace).reverse.dropWhile pyWhitespace).reverse

/-- Python `str.strip()`. -/
def pyStrip (s : String) : String := String.mk (stripChars s.data)

/-- Boolean test that `pat` begins the list `l` (Python slice comparison). -/
def prefB : List Char → List Char → Bool
  | [], _ => true
  | _ :: _, [] => false
  | a :: as, b :: bs => a == b && prefB as bs

/-- Boolean substring test: Python's `pat in s` on character lists. -/
def subStrB (pat : List Char) : List Char → Bool
  | [] => prefB pat []
  | b :: bs => prefB pat (b :: bs) || subStrB pat bs

/-- Python `pat in s` for strings. -/
def strContainsSub (s pat : String) : Bool := subStrB pat.data s.data

theorem prefB_iff (pat l : List Char) : prefB pat l = true ↔ pat <+: l := by
  induction pat generalizing l with
  | nil => simp [prefB]
  | cons a as ih =>
    cases l with
    | nil => simp [prefB]
    | cons b bs =>
      simp [prefB, List.cons_prefix_cons, ih]

theorem subStrB_iff (pat l : List Char) : subStrB pat l = true ↔ pat <:+: l := by
  induction l with
  | nil =>
    simp [subStrB, prefB_iff, List.infix_nil, List.prefix_nil]
  | cons b bs ih =>
    simp [subStrB, Bool.or_eq_true, prefB_iff, ih, List.infix_cons_iff]

/-! ## `create_video_with_retry.py` : rate-limit classification (C5) -/

/-- The fixed indicator substrings of `is_rate_limit_error`
(`create_video_with_retry.py`, line 50). -/
def rate_limit_keywords : List String :=
  ["429", "resource_exhausted", "quota", "rate limit", "too many requests"]

/-- `is_rate_limit_error` (`create_video_with_retry.py`, lines 44-56).
The caller passes `str(result)`; the oracle string `result_str` is that
stringification. -/
def is_rate_limit_error (result_str : String) : Bool :=
  rate_limit_keywords.any (fun k => strContainsSub result_str.toLower k)

/-! ## `create_video_with_retry.py` : outer persistent-retry loop (C4) -/

/-- Fixed retry interval (`create_video_with_retry.py`, line 100). -/
def retry_interval : Nat := 3600

/-- One attempt of `attempt_video_generation`: the success flag and the
stringified result used for rate-limit classification. -/
structure AttemptResult where
  success : Bool
  resultStr : String

/-- `retry_until_success` (`create_video_with_retry.py`, lines 96-153),
from attempt number `k` with `fuel` remaining iterations (the Python
loop is unbounded; `none` means the loop is still running after `fuel`
iterations).  Returns the index of the successful attempt, if reached,
together with the list of sleep durations performed.  Both failure
branches of the Python code sleep `retry_interval`; only the log text
consults `is_rate_limit_error`. -/
def retry_until_success (attempts : Nat → AttemptResult) (k : Nat) :
    Nat → Option Nat × List Nat
  | 0 => (none, [])
  | fuel + 1 =>
    let a := attempts k
    if a.success then
      (some k, [])
    else
      let sleepSecs :=
        if is_rate_limit_error a.resultStr then retry_interval else retry_interval
      let rest := retry_until_success attempts (k + 1) fuel
      (rest.1, sleepSecs :: rest.2)

/-! ## Stage-result dictionaries -/

/-- A Python stage-result dictionary (`{"success": bool, ...}` with
ad-hoc optional keys).  A key absent from the dictionary is `none`
(`dict.get` returns `None`).  `video_data` models the downloaded byte
string by its length. -/
structure StageResult where
  success : Bool := false
  error : Option String := none
  message : Option String := none
  output_path : Option String := none
  video_uri : Option String := none
  audio_path : Option String := none
  path : Option String := none
  url : Option String := none
  file_url : Option String := none
  platform : Option String := none
  video_data : Option Nat := none
  duration : Option Nat := none
  clip_paths : Option (List String) := none
  num_clips : Option Nat := none
deriving DecidableEq, Repr

/-- Python `str(x)` for an optional string (`str(None) = "None"`). -/
def pyStrOpt : Option String → String
  | none => "None"
  | some s => s

/-! ## `src/services/veo_client.py` : Veo3Service -/

/-- Outcome of one attempt of the body of `generate_video_clip`
(`veo_client.py`, lines 50-172), as reported by the external
video-synthesis collaborator:
* `raised msg` — an exception with text `msg` was raised anywhere in the
  attempt (API call, polling, URI parsing, download, file write);
* `opError code msg` — the polled operation finished with
  `operation.error` carrying gRPC `code` and stringification `msg`;
* `noVideo` — the operation finished without a generated video;
* `video uri data` — the operation produced a video at `uri` and the
  download yields `data` bytes. -/
inductive AttemptOutcome
  | raised (msg : String)
  | opError (code : Option Int) (msg : String)
  | noVideo
  | video (uri : String) (data : Nat)
deriving DecidableEq, Repr

/-- The retry loop of `generate_video_clip` (`veo_client.py`,
lines 50-180): attempt index `k`, exception text of the previous failed
attempt in `last_error`, `n` loop iterations remaining (`n` starts at
`max_retries` so the fuel is exact).  Returns the stage-result
dictionary and the list of paths written to disk.  The exponential
backoff sleeps (line 53) do not affect the result and are not
modelled. -/
def generate_video_clip_loop (attempts : Nat → AttemptOutcome)
    (max_retries : Nat) (duration : Nat) (output_path : Option String)
    (k : Nat) (last_error : Option String) :
    Nat → StageResult × List String
  | 0 =>
    -- line 174-180: loop exhausted (unreachable when max_retries ≥ 1)
    ({ success := false, error := some (pyStrOpt last_error),
       message := some ("Video generation failed after " ++
         toString max_retries ++ " attempts") }, [])
  | n + 1 =>
    match attempts k with
    | .raised msg =>
      -- except-handler, lines 161-172
      if k < max_retries - 1 then
        generate_video_clip_loop attempts max_retries duration output_path
          (k + 1) (some msg) n
      else
        ({ success := false, error := some msg,
           message := some ("Video generation failed after " ++
             toString max_retries ++ " attempts: " ++ msg) }, [])
    | .opError code msg =>
      if code = some 13 ∧ k < max_retries - 1 then
        -- lines 97-104: retryable error (code 13), retry
        generate_video_clip_loop attempts max_retries duration output_path
          (k + 1) (some msg) n
      else
        -- line 106: raise, caught by the except-handler at line 161
        if k < max_retries - 1 then
          generate_video_clip_loop attempts max_retries duration output_path
            (k + 1) (some ("Video generation failed: " ++ msg)) n
        else
          ({ success := false,
             error := some ("Video generation failed: " ++ msg),
             message := some ("Video generation failed after " ++
               toString max_retries ++ " attempts: " ++
               "Video generation failed: " ++ msg) }, [])
    | .noVideo =>
      -- lines 152-159
      if k < max_retries - 1 then
        generate_video_clip_loop attempts max_retries duration output_path
          (k + 1) (some "No video in operation response") n
      else
        ({ success := false, error := some "No video in operation response",
           message := some ("Video generation failed after " ++
             toString max_retries ++ " attempts: " ++
             "No video in operation response") }, [])
    | .video uri data =>
      match output_path with
      | some p =>
        -- lines 115-144: download and save to `output_path`
        ({ success := true, video_data := some data,
           output_path := some p, duration := some duration }, [p])
      | none =>
        -- lines 145-151: return the URI only
        ({ success := true, video_uri := some uri,
           duration := some duration }, [])

/-- `Veo3Service.generate_video_clip` (`veo_client.py`, lines 27-180).
The `prompt` only feeds the external collaborator and does not influence
the modelled behaviour. -/
def generate_video_clip (attempts : Nat → AttemptOutcome) (prompt : String)
    (duration : Nat) (output_path : Option String) (max_retries : Nat) :
    StageResult × List String :=
  generate_video_clip_loop attempts max_retries duration output_path 0 none
    max_retries

/-- The per-clip output path `f"{output_dir}/clip_{i+1}.mp4"`
(`veo_client.py`, line 202), for the clip at 0-based index `i`. -/
def clipOutputPath (output_dir : String) (i : Nat) : String :=
  output_dir ++ "/clip_" ++ toString (i + 1) ++ ".mp4"

/-- `settings.clip_duration` (`config.py`, line 56). -/
def clip_duration : Nat := 8

/-- The fan-in check of `generate_multi_clip_video` (`veo_client.py`,
lines 213-224): collect `output_path` of each result in order, stopping
at the first failed sub-result.  The `error` of a failure is
`f"Clip {i+1} generation failed"` and its `message` is the
sub-result's. -/
def collectClips (i : Nat) : List StageResult →
    Except (String × Option String) (List String)
  | [] => .ok []
  | r :: rs =>
    if r.success then
      match r.output_path with
      | some p => (collectClips (i + 1) rs).map (fun ps => p :: ps)
      | none =>
        -- KeyError('output_path'), caught by the outer except (line 233);
        -- unreachable because a successful sub-result echoes its path
        .error ("'output_path'",
          some "Multi-clip generation failed: 'output_path'")
    else
      .error ("Clip " ++ toString (i + 1) ++ " generation failed", r.message)

/-- The fan-out of `generate_multi_clip_video` (`veo_client.py`,
lines 200-211): one `generate_video_clip` task per prompt, the task for
0-based index `i` targeting `clipOutputPath output_dir i`.  The tasks
are independent (no shared state), so the concurrent `asyncio.gather`
is modelled by evaluating them in list order. -/
def multiClipResults (attemptsFor : Nat → Nat → AttemptOutcome)
    (output_dir : String) (i : Nat) :
    List String → List (StageResult × List String)
  | [] => []
  | p :: ps =>
    generate_video_clip (attemptsFor i) p clip_duration
      (some (clipOutputPath output_dir i)) 3 ::
      multiClipResults attemptsFor output_dir (i + 1) ps

/-- `Veo3Service.generate_multi_clip_video` (`veo_client.py`,
lines 182-239).  `attemptsFor i` is the attempt oracle of the sub-call
for clip index `i`.  All sub-calls run (asyncio.gather joins them all),
so every sub-call's disk writes persist even when the stage fails. -/
def generate_multi_clip_video (attemptsFor : Nat → Nat → AttemptOutcome)
    (clip_prompts : List String) (output_dir : String) :
    StageResult × List String :=
  let results := multiClipResults attemptsFor output_dir 0 clip_prompts
  let writes := (results.map Prod.snd).foldr (· ++ ·) []
  match collectClips 0 (results.map Prod.fst) with
  | .ok paths =>
    ({ success := true, clip_paths := some paths,
       num_clips := some paths.length }, writes)
  | .error em =>
    ({ success := false, error := some em.1, message := em.2 }, writes)

/-! ## `src/utils/video_composer.py` : VideoComposer.merge_clips -/

/-- Outcome of the external `ffmpeg` invocation (`subprocess.run`,
`video_composer.py`, lines 74-79): either the timeout expired or the
process ran to completion with an exit code and captured stderr.
`ffWrites` (separate oracle argument below) is the set of paths the
process created on disk. -/
inductive FfmpegOutcome
  | timedOut
  | ran (exitCode : Int) (stderr : String)
deriving DecidableEq, Repr

/-- `VideoComposer.merge_clips` (`video_composer.py`, lines 17-116).
`fs` is the set of existing paths; the returned list is the new set.
`include_transitions` selects between two identical command lines
(lines 49-71) and does not affect behaviour. -/
def merge_clips (clip_paths : List String) (output_path : String)
    (ff : FfmpegOutcome) (ffWrites : List String) (fs : List String) :
    StageResult × List String :=
  -- lines 38-40: verify all clips exist, first missing one raises
  match clip_paths.find? (fun p => !(fs.contains p)) with
  | some p =>
    ({ success := false, error := some ("Clip not found: " ++ p),
       message := some "Clip file not found" }, fs)
  | none =>
    -- lines 43-46: write the concat list file
    let fs1 := "/tmp/concat_list.txt" :: fs
    match ff with
    | .timedOut =>
      ({ success := false, error := some "Operation timeout",
         message := some "Video merge timed out" }, ffWrites ++ fs1)
    | .ran exitCode stderr =>
      if exitCode ≠ 0 then
        ({ success := false, error := some ("FFmpeg failed: " ++ stderr),
           message := some "Video merge failed" }, ffWrites ++ fs1)
      else
        ({ success := true, output_path := some output_path,
           num_clips := some clip_paths.length }, ffWrites ++ fs1)

/-! ## `src/services/google_drive_uploader.py` : GoogleDriveUploader -/

/-- One candidate sync-folder entry (`google_drive_uploader.py`,
lines 48-55): the first four list entries are `Path` objects, but the
last two are plain Python strings, on which the discovery loop's
`.exists()` call raises
`AttributeError("'str' object has no attribute 'exists'")`. -/
inductive DriveCandidate
  | pathObj (p : String)
  | rawStr (s : String)
deriving DecidableEq, Repr

/-- The candidate local Google-Drive sync folders
(`google_drive_uploader.py`, lines 48-55), with `Path.home()` supplied
as `home`. -/
def google_drive_paths (home : String) : List DriveCandidate :=
  [.pathObj "/Users/renoprovine/Library/CloudStorage/GoogleDrive-rprovine@kointyme.com/My Drive",
   .pathObj (home ++ "/Library/CloudStorage/GoogleDrive-rprovine@kointyme.com/My Drive"),
   .pathObj (home ++ "/Google Drive"),
   .pathObj (home ++ "/GoogleDrive"),
   .rawStr "/Users/renoprovine/Google Drive",
   .rawStr "/Volumes/GoogleDrive"]

/-- The folder-discovery loop (`google_drive_uploader.py`,
lines 57-62): `path.exists()` on a `Path` candidate checks the
filesystem and the first hit wins; on a plain-string candidate the
attribute lookup raises, which the embedding returns as the
exception's text. -/
def findDrivePath (fs : List String) :
    List DriveCandidate → Except String (Option String)
  | [] => .ok none
  | .pathObj p :: rest =>
    if fs.contains p then .ok (some p) else findDrivePath fs rest
  | .rawStr _ :: _ => .error "'str' object has no attribute 'exists'"

/-- The sanitized filename
`"".join(c for c in title if c.isalnum() or c in (' ', '-', '_')).strip()`
(`google_drive_uploader.py`, lines 72 and 99).  Python's `str.isalnum`
is Unicode-aware, so the character classifier is an explicit parameter
`isalnum` (on the ASCII range it agrees with `Char.isAlphanum`). -/
def sanitizeTitle (isalnum : Char → Bool) (title : String) : String :=
  pyStrip (String.mk (title.data.filter
    (fun c => isalnum c || c = ' ' || c = '-' || c = '_')))

/-- `GoogleDriveUploader.upload_video` (`google_drive_uploader.py`,
lines 24-129).  `isalnum` is Python's Unicode-aware `str.isalnum`;
`ioExc` is the exception oracle of the directory-creation/copy/write
sequence inside the try block — `some msg` means that sequence raises
with text `msg` (modelled before its filesystem effects), `none` means
the I/O succeeds.  Any exception reaches the handler at line 122,
which returns the failure dictionary.  `fs` is the set of existing
paths (files and directories); the returned list is the new set. -/
def upload_video (isalnum : Char → Bool) (home video_path title : String)
    (description : Option String) (ioExc : Option String)
    (fs : List String) : StageResult × List String :=
  -- lines 44-45: the video file must exist
  if !(fs.contains video_path) then
    ({ success := false, platform := some "google_drive",
       error := some ("Video not found: " ++ video_path),
       message := some ("Google Drive upload failed: " ++
         ("Video not found: " ++ video_path)) }, fs)
  else
    match findDrivePath fs (google_drive_paths home) with
    | .error e =>
      -- the AttributeError on a plain-string candidate propagates to
      -- the except-handler at lines 122-129
      ({ success := false, platform := some "google_drive",
         error := some e,
         message := some ("Google Drive upload failed: " ++ e) }, fs)
    | .ok none =>
      -- lines 64-82: local-only fallback.  Dead code in the source: the
      -- candidate list ends in two plain strings, so the loop can only
      -- leave `drive_path` unset by raising first.
      match ioExc with
      | some msg =>
        ({ success := false, platform := some "google_drive",
           error := some msg,
           message := some ("Google Drive upload failed: " ++ msg) }, fs)
      | none =>
        let output_dir := "/tmp/ai_generated_videos"
        let safe := sanitizeTitle isalnum title
        let out := output_dir ++ "/" ++ safe ++ ".mp4"
        ({ success := true, platform := some "google_drive",
           path := some out,
           message := some ("Video saved locally (Google Drive not found): " ++
             out) }, out :: output_dir :: fs)
    | .ok (some dp) =>
      match ioExc with
      | some msg =>
        ({ success := false, platform := some "google_drive",
           error := some msg,
           message := some ("Google Drive upload failed: " ++ msg) }, fs)
      | none =>
        -- lines 87-91: descend into a "My Drive" subfolder when present
        let dp2 :=
          if !(dp.endsWith "My Drive") && fs.contains (dp ++ "/My Drive") then
            dp ++ "/My Drive"
          else dp
        -- lines 93-96: target folder, created when missing
        let target := dp2 ++ "/AI Generated Videos"
        let fs1 := if fs.contains target then fs else target :: fs
        let safe := sanitizeTitle isalnum title
        let out := target ++ "/" ++ safe ++ ".mp4"
        let fs2 := out :: fs1
        -- lines 109-112: optional description sidecar file
        let fs3 :=
          match description with
          | some _ => (target ++ "/" ++ safe ++ "_description.txt") :: fs2
          | none => fs2
        ({ success := true, platform := some "google_drive",
           path := some out,
           url := some ("Google Drive: AI Generated Videos/" ++ safe ++ ".mp4"),
           message := some "Video uploaded to Google Drive successfully" }, fs3)

/-! ## `src/services/claude_client.py` : extract_json_from_response -/

/-- First index of `l` at which `pat` occurs as a contiguous block,
scanning left to right (Python `re.search` of a literal). -/
def findSub (pat : List Char) : List Char → Option Nat
  | [] => if prefB pat [] then some 0 else none
  | b :: bs =>
    if prefB pat (b :: bs) then some 0
    else (findSub pat bs).map (· + 1)

/-- Last index of the character `c` in the list, if any (the end of a
greedy `.*` before a literal `c`). -/
def lastIdxOf (c : Char) : List Char → Option Nat
  | [] => none
  | b :: bs =>
    match lastIdxOf c bs with
    | some i => some (i + 1)
    | none => if b = c then some 0 else none

/-- `re.search(r'(\{.*\}|\[.*\])', text, re.DOTALL)`
(`claude_client.py`, line 34): the leftmost position opening a brace or
bracket with a matching closer somewhere later wins, and the greedy `.*`
extends to the last such closer in the whole text. -/
def braceScan : List Char → Option (List Char)
  | [] => none
  | c :: rest =>
    if c = '{' then
      match lastIdxOf '}' rest with
      | some q => some ('{' :: rest.take (q + 1))
      | none => braceScan rest
    else if c = '[' then
      match lastIdxOf ']' rest with
      | some q => some ('[' :: rest.take (q + 1))
      | none => braceScan rest
    else braceScan rest

/-- The candidate-extraction phase of `extract_json_from_response`
(`claude_client.py`, lines 28-39): a fenced code block
(`re.search(r'```(?:json)?\s*\n?(.*?)\n?```', ..., re.DOTALL)`) wins,
else the first brace/bracket group, else the whole response; the chosen
group is stripped.  For the fenced pattern, the lazy group runs to the
first later fence, an optional literal `json` tag is consumed, and the
`\s*\n?` prefix plus the `\n?` before the closing fence are invisible
after `strip()`; when the first fence has no later fence no start
position can match (every later start sees a suffix of the same text),
so the search falls through. -/
def extractCandidate (response_text : String) : String :=
  let l := response_text.data
  let fence := "```".data
  let fallback :=
    match braceScan l with
    | some g => String.mk (stripChars g)
    | none => pyStrip response_text
  match findSub fence l with
  | some p =>
    let rest := l.drop (p + 3)
    let rest2 := if prefB "json".data rest then rest.drop 4 else rest
    match findSub fence rest2 with
    | some q => String.mk (stripChars (rest2.take q))
    | none => fallback
  | none => fallback

/-- `extract_json_from_response` (`claude_client.py`, lines 16-60).
The three parse layers — `json.loads` (strict), `json.loads` with
`strict=False` (lenient), and `ast.literal_eval` — are Python-library
collaborators, supplied as `p1`, `p2`, `p3`; each returns the parsed
value or the raised exception's text.  The function tries them in order
on the extracted candidate and raises
`ValueError(f"Could not parse JSON from Claude response: {e}")` when
all three fail. -/
def extract_json_from_response {J : Type}
    (p1 p2 p3 : String → Except String J) (response_text : String) :
    Except String J :=
  let json_str := extractCandidate response_text
  match p1 json_str with
  | .ok v => .ok v
  | .error _ =>
    match p2 json_str with
    | .ok v => .ok v
    | .error _ =>
      match p3 json_str with
      | .ok v => .ok v
      | .error e =>
        .error ("Could not parse JSON from Claude response: " ++ e)

/-! ## `src/workflows/video_generator.py` : VideoGenerator -/

/-- `LENILANI_SERVICES` (`video_generator.py`, lines 22-31). -/
def LENILANI_SERVICES : List String :=
  ["AI Integration & Automation",
   "Website Development & Design",
   "Digital Marketing & SEO",
   "E-commerce Solutions",
   "Business Process Optimization",
   "Cloud Infrastructure & Migration",
   "Cybersecurity Consulting",
   "Data Analytics & Business Intelligence"]

/-- `settings.company_website` (`config.py`, line 66). -/
def company_website : String := "https://www.lenilani.com"

/-- The topic-selection dictionary returned by
`claude_service.select_video_topic`; every key may be absent. -/
structure Selection where
  selected_topic : Option String := none
  service_alignment : Option String := none
  storytelling_approach : Option String := none
  emotional_beats : Option (List String) := none
  cta : Option String := none
deriving DecidableEq, Repr

/-- The per-platform caption dictionary inside the video-prompts
reply. -/
structure Captions where
  instagram : Option String := none
  tiktok : Option String := none
  youtube : Option String := none
  twitter : Option String := none
deriving DecidableEq, Repr

/-- The dictionary returned by `claude_service.generate_video_prompts`;
every key may be absent. -/
structure VideoPrompts where
  clip_1_prompt : Option String := none
  clip_2_prompt : Option String := none
  clip_3_prompt : Option String := none
  title_card_design : Option String := none
  captions : Option Captions := none
deriving DecidableEq, Repr

/-- One collaborator call site of `generate_and_publish`, in pipeline
order; the run's trace is the list of call sites actually executed. -/
inductive Stage
  | researchTopics
  | selectTopic
  | genVideoPrompts
  | genClips
  | titleCardPrompt
  | genImage
  | voScript
  | genVoiceover
  | musicPrompt
  | genMusic
  | composeFinal
  | mergeFallback
  | driveUpload
  | hubspotPublish
deriving DecidableEq, Repr

/-- Mocked replies of every collaborator of one pipeline run.  The
text-generation calls (`research_trending_topics`, `select_video_topic`,
`generate_video_prompts`, `generate_title_card_prompt`,
`generate_voiceover_script`) re-raise their errors, so they are
`Except`; `generate_music_prompt` swallows errors behind an internal
fallback prompt and always returns a string; the remaining calls return
stage-result dictionaries. -/
structure Env where
  research : Except String Unit
  selection : Except String Selection
  videoPrompts : Except String VideoPrompts
  clipsResult : StageResult
  titleCardPrompt : Except String String
  imageResult : StageResult
  voScript : Except String String
  voiceoverResult : StageResult
  musicPrompt : String
  musicResult : StageResult
  composeResult : StageResult
  mergeResult : StageResult
  uploadResult : StageResult
  hubspotResult : StageResult
  hubspotToken : Bool

/-- The dictionary returned by `generate_and_publish`
(`video_generator.py`, lines 126-130, 253-263, 351-363 and 368-372).
The ISO `timestamp` key is omitted (pure formatting).  A key absent
from the returned dictionary is `none`. -/
structure Report where
  success : Bool
  topic : Option String := none
  service_focus : Option String := none
  clip_paths : Option (List String) := none
  title_card_path : Option String := none
  final_video_path : Option String := none
  captions : Option Captions := none
  google_drive_url : Option String := none
  youtube_url : Option String := none
  errors : Option (List String) := none
  message : Option String := none
deriving DecidableEq, Repr

/-- The outer exception handler (`video_generator.py`, lines 365-372):
append the exception text and return a failure report. -/
def workflowFailed (errors : List String) (e : String) : Report :=
  { success := false, errors := some (errors ++ [e]),
    message := some ("Workflow failed: " ++ e) }

/-- Steps 8-9 (`video_generator.py`, lines 268-363): Google-Drive
upload and HubSpot/YouTube publishing, both gated by
`publish_immediately` (the latter also by the HubSpot token), then the
success report.  The upload/publish descriptions, captions and hashtag
extraction only feed the collaborators and do not influence the
modelled behaviour. -/
def pipelineFinish (env : Env) (errors : List String)
    (selected_topic service_focus : String) (captions : Captions)
    (clip_paths : List String) (title_card_path : Option String)
    (final_video_path : String) (publish_immediately : Bool)
    (trace : List Stage) : Report × List Stage :=
  let step8 :=
    if publish_immediately then
      let r := env.uploadResult
      if r.success then (errors, r.url, trace ++ [Stage.driveUpload])
      else (errors ++ ["Google Drive upload: " ++ pyStrOpt r.message],
        none, trace ++ [Stage.driveUpload])
    else (errors, none, trace)
  let errors1 := step8.1
  let google_drive_url := step8.2.1
  let trace1 := step8.2.2
  let step9 :=
    if publish_immediately ∧ env.hubspotToken then
      let r := env.hubspotResult
      if r.success then (errors1, r.file_url, trace1 ++ [Stage.hubspotPublish])
      else (errors1 ++ ["YouTube publishing: " ++ pyStrOpt r.message],
        none, trace1 ++ [Stage.hubspotPublish])
    else (errors1, none, trace1)
  let errors2 := step9.1
  let youtube_url := step9.2.1
  let trace2 := step9.2.2
  ({ success := true,
     topic := some selected_topic,
     service_focus := some service_focus,
     clip_paths := some clip_paths,
     title_card_path := title_card_path,
     final_video_path := some final_video_path,
     captions := some captions,
     google_drive_url := if publish_immediately then google_drive_url else none,
     youtube_url := if publish_immediately then youtube_url else none,
     errors := if errors2 = [] then none else some errors2 }, trace2)

/-- Step 7 (`video_generator.py`, lines 228-266): composition, with the
fallback merge of the raw clips when `compose_final_video` fails. -/
def pipelineCompose (env : Env) (errors : List String)
    (selected_topic service_focus : String) (captions : Captions)
    (clip_paths : List String) (title_card_path : Option String)
    (voiceover_path music_path : Option String)
    (publish_immediately : Bool) (timestamp : Nat) (trace : List Stage) :
    Report × List Stage :=
  let final_video_path := "/tmp/final_video_" ++ toString timestamp ++ ".mp4"
  let r := env.composeResult
  let trace1 := trace ++ [Stage.composeFinal]
  if !r.success then
    let errors1 := errors ++
      ["Video composition: " ++ (r.error.getD "Unknown error composing video")]
    if clip_paths ≠ [] then
      let m := env.mergeResult
      let trace2 := trace1 ++ [Stage.mergeFallback]
      if !m.success then
        ({ success := false, errors := some errors1,
           message := some "Video composition failed" }, trace2)
      else
        pipelineFinish env errors1 selected_topic service_focus captions
          clip_paths title_card_path (m.output_path.getD final_video_path)
          publish_immediately trace2
    else
      ({ success := false, errors := some errors1,
         message := some "Video composition failed and no fallback available" },
       trace1)
  else
    pipelineFinish env errors selected_topic service_focus captions
      clip_paths title_card_path (r.output_path.getD final_video_path)
      publish_immediately trace1

/-- Steps 4-6 (`video_generator.py`, lines 135-226): title card,
voiceover and background music — optional stages whose wrapped
stage-result failures append an error and substitute `None`, but whose
LLM text sub-calls (`generate_title_card_prompt`,
`generate_voiceover_script`) re-raise and abort the run.  The mood and
prompt strings only feed the collaborators. -/
def pipelineOptionalStages (env : Env) (errors : List String)
    (selected_topic service_focus : String) (emotional_beats : List String)
    (captions : Captions) (clip_paths : List String)
    (publish_immediately : Bool) (timestamp : Nat) (trace : List Stage) :
    Report × List Stage :=
  -- Step 4: title card
  match env.titleCardPrompt with
  | .error e => (workflowFailed errors e, trace ++ [Stage.titleCardPrompt])
  | .ok _ =>
    let trace4 := trace ++ [Stage.titleCardPrompt, Stage.genImage]
    let ir := env.imageResult
    let step4 :=
      if !ir.success then
        (errors ++
          ["Title card: " ++ (ir.error.getD "Unknown error generating title card")],
         (none : Option String))
      else (errors, ir.output_path)
    let errors4 := step4.1
    let title_card_path := step4.2
    -- Step 5: voiceover script (re-raises) then audio
    match env.voScript with
    | .error e => (workflowFailed errors4 e, trace4 ++ [Stage.voScript])
    | .ok _ =>
      let trace5 := trace4 ++ [Stage.voScript, Stage.genVoiceover]
      let vr := env.voiceoverResult
      let step5 :=
        if !vr.success then
          (errors4 ++
            ["Voiceover: " ++ (vr.error.getD "Unknown error generating voiceover")],
           (none : Option String))
        else (errors4, vr.audio_path)
      let errors5 := step5.1
      let voiceover_path := step5.2
      -- Step 6: mood, music prompt (never raises), music
      let _primary_mood :=
        match emotional_beats with
        | [] => "uplifting"
        | b :: _ =>
          if b = "uplifting" ∨ b = "dramatic" ∨ b = "inspirational" ∨
              b = "exciting" then b
          else "uplifting"
      let _music_prompt_text := env.musicPrompt
      let trace6 := trace5 ++ [Stage.musicPrompt, Stage.genMusic]
      let mr := env.musicResult
      let step6 :=
        if !mr.success then
          (errors5 ++
            ["Background music: " ++ (mr.error.getD "Unknown error generating music")],
           (none : Option String))
        else (errors5, mr.audio_path)
      let errors6 := step6.1
      let music_path := step6.2
      pipelineCompose env errors6 selected_topic service_focus captions
        clip_paths title_card_path voiceover_path music_path
        publish_immediately timestamp trace6

/-- Steps 2-3 (`video_generator.py`, lines 90-133): creative-brief
generation (re-raises on failure; a missing clip prompt raises a
`TypeError` at the `len(...)` log line) and the mandatory clip-synthesis
stage, which aborts the run on failure. -/
def pipelineFromBrief (env : Env) (errors : List String)
    (selected_topic service_focus : String) (emotional_beats : List String)
    (cta : String) (publish_immediately : Bool) (timestamp : Nat)
    (trace : List Stage) : Report × List Stage :=
  let _ := cta
  match env.videoPrompts with
  | .error e => (workflowFailed errors e, trace ++ [Stage.genVideoPrompts])
  | .ok vp =>
    let trace2 := trace ++ [Stage.genVideoPrompts]
    match vp.clip_1_prompt, vp.clip_2_prompt, vp.clip_3_prompt with
    | some _, some _, some _ =>
      let captions := vp.captions.getD {}
      let trace3 := trace2 ++ [Stage.genClips]
      let cr := env.clipsResult
      if !cr.success then
        ({ success := false,
           errors := some (errors ++
             ["Video generation: " ++ (cr.error.getD "Unknown error generating clips")]),
           message := some "Video generation failed" }, trace3)
      else
        pipelineOptionalStages env errors selected_topic service_focus
          emotional_beats captions (cr.clip_paths.getD [])
          publish_immediately timestamp trace3
    | _, _, _ =>
      (workflowFailed errors "object of type 'NoneType' has no len()", trace2)

/-- `VideoGenerator.generate_and_publish` (`video_generator.py`,
lines 37-372), over the mocked collaborator environment.  `timestamp`
is the run's epoch-second stamp (line 113).  Returns the report
dictionary and the trace of collaborator call sites executed. -/
def generate_and_publish (env : Env) (topic category : Option String)
    (publish_immediately : Bool) (timestamp : Nat) : Report × List Stage :=
  let _ := category
  let errors : List String := []
  match topic with
  | some t =>
    pipelineFromBrief env errors t (LENILANI_SERVICES.headD "")
      ["Problem", "Solution", "Transformation"]
      ("Visit " ++ company_website ++ " to learn more")
      publish_immediately timestamp []
  | none =>
    match env.research with
    | .error e => (workflowFailed errors e, [Stage.researchTopics])
    | .ok _ =>
      match env.selection with
      | .error e =>
        (workflowFailed errors e, [Stage.researchTopics, Stage.selectTopic])
      | .ok sel =>
        pipelineFromBrief env errors
          (sel.selected_topic.getD "AI for Hawaii Businesses")
          (sel.service_alignment.getD (LENILANI_SERVICES.headD ""))
          (sel.emotional_beats.getD ["Hook", "Solution", "Impact"])
          (sel.cta.getD ("Visit " ++ company_website))
          publish_immediately timestamp
          [Stage.researchTopics, Stage.selectTopic]

/-! ## Theorems: C5 (rate-limit classification) -/

/-- C5: `is_rate_limit_error` returns true iff the lower-cased string
representation of the result contains at least one of the fixed
indicator substrings ("429", "resource_exhausted", "quota",
"rate limit", "too many requests"); hence it is true for error strings
containing an indicator in any letter case and false for strings
containing none. -/
theorem rate_limit_classifier_iff (result_str : String) :
    is_rate_limit_error result_str = true ↔
      ∃ k ∈ rate_limit_keywords, k.data <:+: result_str.toLower.data := by
  simp [is_rate_limit_error, strContainsSub, subStrB_iff, List.any_eq_true]

/-! ## Theorems: C4 (outer persistent-retry loop) -/

lemma retry_until_success_aux (attempts : Nat → AttemptResult) :
    ∀ fuel k,
      (∀ i, (retry_until_success attempts k fuel).1 = some i →
        k ≤ i ∧ (attempts i).success = true ∧
        (∀ j, k ≤ j → j < i → (attempts j).success = false) ∧
        (retry_until_success attempts k fuel).2 =
          List.replicate (i - k) retry_interval) ∧
      ((retry_until_success attempts k fuel).1 = none →
        (∀ j, k ≤ j → j < k + fuel → (attempts j).success = false) ∧
        (retry_until_success attempts k fuel).2 =
          List.replicate fuel retry_interval) := by
  intro fuel
  induction fuel with
  | zero =>
    intro k
    refine ⟨fun i hi => by simp [retry_until_success] at hi, fun _ => ?_⟩
    exact ⟨fun j hj hj2 => absurd hj2 (by omega), by simp [retry_until_success]⟩
  | succ fuel ih =>
    intro k
    by_cases h : (attempts k).success
    · refine ⟨fun i hi => ?_, fun hn => ?_⟩
      · simp only [retry_until_success, h, if_true] at hi ⊢
        obtain rfl : k = i := by simpa using hi
        exact ⟨le_rfl, h, fun j hj hj2 => absurd (lt_of_le_of_lt hj hj2) (lt_irrefl _),
          by simp [retry_until_success, h]⟩
      · simp [retry_until_success, h] at hn
    · have hf : (attempts k).success = false := by simpa using h
      have hrec := ih (k + 1)
      refine ⟨fun i hi => ?_, fun hn => ?_⟩
      · simp only [retry_until_success, hf, Bool.false_eq_true, if_false, ite_self] at hi ⊢
        obtain ⟨hki, hsucc, hmid, hsleep⟩ := hrec.1 i hi
        refine ⟨by omega, hsucc, fun j hj hj2 => ?_, ?_⟩
        · rcases Nat.eq_or_lt_of_le hj with rfl | hj'
          · exact hf
          · exact hmid j hj' hj2
        · rw [hsleep]
          have : i - k = (i - (k + 1)) + 1 := by omega
          rw [this, List.replicate_succ]
      · simp only [retry_until_success, hf, Bool.false_eq_true, if_false, ite_self] at hn ⊢
        obtain ⟨hmid, hsleep⟩ := hrec.2 hn
        refine ⟨fun j hj hj2 => ?_, ?_⟩
        · rcases Nat.eq_or_lt_of_le hj with rfl | hj'
          · exact hf
          · exact hmid j hj' (by omega)
        · rw [hsleep, List.replicate_succ]

/-- C4: in `retry_until_success`, every failed attempt is followed by a
sleep of the same fixed interval and another attempt, whether or not the
failure is rate-limit-classified (the sleep list is
`replicate _ retry_interval` unconditionally), and the loop returns only
when an attempt succeeds — a run that has not yet succeeded (`none`) has
every attempt so far failed and is still retrying. -/
theorem persistent_retry_never_aborts (attempts : Nat → AttemptResult)
    (fuel i : Nat) :
    ((retry_until_success attempts 0 fuel).1 = some i →
      (attempts i).success = true ∧
      (∀ j, j < i → (attempts j).success = false) ∧
      (retry_until_success attempts 0 fuel).2 =
        List.replicate i retry_interval) ∧
    ((retry_until_success attempts 0 fuel).1 = none →
      (∀ j, j < fuel → (attempts j).success = false) ∧
      (retry_until_success attempts 0 fuel).2 =
        List.replicate fuel retry_interval) := by
  have h := retry_until_success_aux attempts fuel 0
  refine ⟨fun hi => ?_, fun hn => ?_⟩
  · obtain ⟨_, hsucc, hmid, hsleep⟩ := h.1 i hi
    exact ⟨hsucc, fun j hj => hmid j (Nat.zero_le j) hj, by simpa using hsleep⟩
  · obtain ⟨hmid, hsleep⟩ := h.2 hn
    exact ⟨fun j hj => hmid j (Nat.zero_le j) (by omega), hsleep⟩

/-- A sample attempt oracle: attempt 0 fails with a rate-limited error,
attempt 1 fails with a non-rate-limit error, attempt 2 succeeds. -/
def sampleAttempts : Nat → AttemptResult := fun n =>
  { success := decide (n = 2),
    resultStr := if n = 0 then "Error 429: RESOURCE_EXHAUSTED" else "unexpected failure" }

theorem persistent_retry_never_aborts_witness :
    (sampleAttempts 2).success = true ∧
    (∀ j, j < 2 → (sampleAttempts j).success = false) ∧
    (retry_until_success sampleAttempts 0 10).2 =
      List.replicate 2 retry_interval :=
  (persistent_retry_never_aborts sampleAttempts 10 2).1 (by decide)

/-! ## Theorems: C6 (layered JSON extraction) -/

/-- C6: `extract_json_from_response` runs the three parse layers in
order on the extracted candidate string, returns the first layer's
result that succeeds, and raises the documented `ValueError` exactly
when all three layers fail; it never returns anything but a single
layer's output.  (Determinism is immediate: the embedding is a pure
function of the input.) -/
theorem extract_json_layered {J : Type} (p1 p2 p3 : String → Except String J)
    (response_text : String) :
    (∀ v, p1 (extractCandidate response_text) = .ok v →
      extract_json_from_response p1 p2 p3 response_text = .ok v) ∧
    (∀ e1 v, p1 (extractCandidate response_text) = .error e1 →
      p2 (extractCandidate response_text) = .ok v →
      extract_json_from_response p1 p2 p3 response_text = .ok v) ∧
    (∀ e1 e2 v, p1 (extractCandidate response_text) = .error e1 →
      p2 (extractCandidate response_text) = .error e2 →
      p3 (extractCandidate response_text) = .ok v →
      extract_json_from_response p1 p2 p3 response_text = .ok v) ∧
    (∀ e1 e2 e3, p1 (extractCandidate response_text) = .error e1 →
      p2 (extractCandidate response_text) = .error e2 →
      p3 (extractCandidate response_text) = .error e3 →
      extract_json_from_response p1 p2 p3 response_text =
        .error ("Could not parse JSON from Claude response: " ++ e3)) ∧
    ((∃ e, extract_json_from_response p1 p2 p3 response_text = .error e) ↔
      (∃ e1, p1 (extractCandidate response_text) = .error e1) ∧
      (∃ e2, p2 (extractCandidate response_text) = .error e2) ∧
      (∃ e3, p3 (extractCandidate response_text) = .error e3)) := by
  refine ⟨fun v h1 => by simp [extract_json_from_response, h1],
    fun e1 v h1 h2 => by simp [extract_json_from_response, h1, h2],
    fun e1 e2 v h1 h2 h3 => by simp [extract_json_from_response, h1, h2, h3],
    fun e1 e2 e3 h1 h2 h3 => by simp [extract_json_from_response, h1, h2, h3],
    ?_⟩
  cases h1 : p1 (extractCandidate response_text) with
  | ok v => simp [extract_json_from_response, h1]
  | error e1 =>
    cases h2 : p2 (extractCandidate response_text) with
    | ok v => simp [extract_json_from_response, h1, h2]
    | error e2 =>
      cases h3 : p3 (extractCandidate response_text) with
      | ok v => simp [extract_json_from_response, h1, h2, h3]
      | error e3 => simp [extract_json_from_response, h1, h2, h3]

/-- A strict parser accepting only the exact candidate of the sample
fenced response; stands in for `json.loads`. -/
def sampleStrictParse : String → Except String Nat := fun s =>
  if s = "[1, 2, 3]" then .ok 3 else .error "Expecting value: line 1 column 1 (char 0)"

/-- A layer that always fails; stands in for the two stricter layers on
unrecoverable input. -/
def sampleFailParse : String → Except String Nat := fun _ =>
  .error "malformed node or string"

theorem extract_json_layered_witness :
    extract_json_from_response sampleFailParse sampleFailParse
      sampleStrictParse "Here is the data:\n```json\n[1, 2, 3]\n```\nEnjoy!" =
      .ok 3 ∧
    extract_json_from_response sampleFailParse sampleFailParse
      sampleFailParse "no structure at all" =
      .error ("Could not parse JSON from Claude response: " ++
        "malformed node or string") :=
  ⟨(extract_json_layered sampleFailParse sampleFailParse sampleStrictParse
      "Here is the data:\n```json\n[1, 2, 3]\n```\nEnjoy!").2.2.1
      "malformed node or string" "malformed node or string" 3 rfl rfl rfl,
   (extract_json_layered sampleFailParse sampleFailParse sampleFailParse
      "no structure at all").2.2.2.1
      "malformed node or string" "malformed node or string"
      "malformed node or string" rfl rfl rfl⟩

/-! ## Theorems: C9 and C10 (Google-Drive upload without a sync folder) -/

/-- Every error `findDrivePath` can return is the plain-string
candidate's `AttributeError` text. -/
lemma findDrivePath_error_eq (fs : List String) :
    ∀ (l : List DriveCandidate) (e : String),
      findDrivePath fs l = .error e →
      e = "'str' object has no attribute 'exists'" := by
  intro l
  induction l with
  | nil => intro e he; simp [findDrivePath] at he
  | cons c rest ih =>
    intro e he
    cases c with
    | pathObj p =>
      by_cases hp : p ∈ fs
      · simp [findDrivePath, hp] at he
      · simp only [findDrivePath] at he
        rw [if_neg (by simpa using hp)] at he
        exact ih e he
    | rawStr s =>
      simp only [findDrivePath, Except.error.injEq] at he
      exact he.symm

/-- When none of the four `Path` candidates exists, the discovery loop
reaches the fifth, plain-string candidate and raises. -/
lemma findDrivePath_no_path_candidates (home : String) (fs : List String)
    (hnone : ∀ p, DriveCandidate.pathObj p ∈ google_drive_paths home →
      fs.contains p = false) :
    findDrivePath fs (google_drive_paths home) =
      .error "'str' object has no attribute 'exists'" := by
  have h1 := hnone
    "/Users/renoprovine/Library/CloudStorage/GoogleDrive-rprovine@kointyme.com/My Drive"
    (by simp [google_drive_paths])
  have h2 := hnone
    (home ++ "/Library/CloudStorage/GoogleDrive-rprovine@kointyme.com/My Drive")
    (by simp [google_drive_paths])
  have h3 := hnone (home ++ "/Google Drive") (by simp [google_drive_paths])
  have h4 := hnone (home ++ "/GoogleDrive") (by simp [google_drive_paths])
  have h1n :
      "/Users/renoprovine/Library/CloudStorage/GoogleDrive-rprovine@kointyme.com/My Drive" ∉
        fs := by simpa using h1
  have h2n :
      (home ++ "/Library/CloudStorage/GoogleDrive-rprovine@kointyme.com/My Drive") ∉
        fs := by simpa using h2
  have h3n : (home ++ "/Google Drive") ∉ fs := by simpa using h3
  have h4n : (home ++ "/GoogleDrive") ∉ fs := by simpa using h4
  simp [google_drive_paths, findDrivePath, h1n, h2n, h3n, h4n]

/-- With an existing video and no sync folder, `upload_video` returns
the `AttributeError` failure dictionary and leaves the filesystem
unchanged. -/
lemma upload_video_no_drive_eq (isalnum : Char → Bool)
    (home video_path title : String) (d : Option String)
    (ioExc : Option String) (fs : List String)
    (hvid : fs.contains video_path = true)
    (hnone : ∀ p, DriveCandidate.pathObj p ∈ google_drive_paths home →
      fs.contains p = false) :
    upload_video isalnum home video_path title d ioExc fs =
      ({ success := false, platform := some "google_drive",
         error := some "'str' object has no attribute 'exists'",
         message := some ("Google Drive upload failed: " ++
           "'str' object has no attribute 'exists'") }, fs) := by
  have hfind := findDrivePath_no_path_candidates home fs hnone
  have hvid2 : video_path ∈ fs := by simpa using hvid
  simp [upload_video, hvid2, hfind]

/-- C9: the claimed local-only fallback is unreachable.  At the exact
input the claim describes — the video exists but no candidate sync
folder does — the fifth candidate (`"/Users/renoprovine/Google Drive"`,
a plain string) makes the loop's `path.exists()` raise
`AttributeError`, and `upload_video` returns a failure instead of the
fallback success; the fallback at lines 64-82 is dead code. -/
theorem upload_no_drive_attribute_error :
    (upload_video Char.isAlphanum "/home/u" "/tmp/final_video_1.mp4"
        "Hawaii AI" none none ["/tmp/final_video_1.mp4"]).1 =
      { success := false, platform := some "google_drive",
        error := some "'str' object has no attribute 'exists'",
        message := some ("Google Drive upload failed: " ++
          "'str' object has no attribute 'exists'") } ∧
    (upload_video Char.isAlphanum "/home/u" "/tmp/final_video_1.mp4"
        "Hawaii AI" none none ["/tmp/final_video_1.mp4"]).2 =
      ["/tmp/final_video_1.mp4"] := by
  decide

/-- C10 counterexample: in the no-sync-folder scenario the upload never
takes the local-only fallback — it returns a failure (with no `url`
key), not the claimed successful result. -/
theorem fallback_upload_not_successful_counterexample :
    (upload_video Char.isAlphanum "/home/u" "/tmp/final_video_2.mp4"
        "T2" none none ["/tmp/final_video_2.mp4"]).1.success = false ∧
    (upload_video Char.isAlphanum "/home/u" "/tmp/final_video_2.mp4"
        "T2" none none ["/tmp/final_video_2.mp4"]).1.url = none ∧
    (upload_video Char.isAlphanum "/home/u" "/tmp/final_video_2.mp4"
        "T2" none none ["/tmp/final_video_2.mp4"]).1.error =
      some "'str' object has no attribute 'exists'" := by
  decide

/-- C10 (amended): when no sync folder is found, `upload_video` returns
a failure (the plain-string candidate's `AttributeError`), not a
url-less success; the orchestrator then records
`google_drive_url = None` in a report whose `success` is still true
(upload is optional) and appends the upload failure to `errors` — a
caller still cannot distinguish this run from a `publish=false` run by
the url field alone, though the failure is visible in `errors`. -/
theorem no_drive_upload_url_indistinguishable (env : Env)
    (isalnum : Char → Bool) (home video_path title : String)
    (d : Option String) (ioExc : Option String) (fs : List String)
    (t : String) (cat : Option String) (ts : Nat) (vp : VideoPrompts)
    (c1p c2p c3p tcp vos : String)
    (hvid : fs.contains video_path = true)
    (hnone : ∀ p, DriveCandidate.pathObj p ∈ google_drive_paths home →
      fs.contains p = false)
    (hup : env.uploadResult =
      (upload_video isalnum home video_path title d ioExc fs).1)
    (hvp : env.videoPrompts = .ok vp)
    (h1 : vp.clip_1_prompt = some c1p) (h2 : vp.clip_2_prompt = some c2p)
    (h3 : vp.clip_3_prompt = some c3p)
    (hclips : env.clipsResult.success = true)
    (htc : env.titleCardPrompt = .ok tcp)
    (hvs : env.voScript = .ok vos)
    (hcompose : env.composeResult.success = true) :
    (generate_and_publish env (some t) cat true ts).1.success = true ∧
    (generate_and_publish env (some t) cat true ts).1.google_drive_url =
      none ∧
    ("Google Drive upload: " ++ ("Google Drive upload failed: " ++
        "'str' object has no attribute 'exists'")) ∈
      (generate_and_publish env (some t) cat true ts).1.errors.getD [] ∧
    (generate_and_publish env (some t) cat false ts).1.google_drive_url =
      none := by
  have hfb := upload_video_no_drive_eq isalnum home video_path title d ioExc
    fs hvid hnone
  have hu1 : env.uploadResult.success = false := by rw [hup, hfb]
  have hum : env.uploadResult.message =
      some ("Google Drive upload failed: " ++
        "'str' object has no attribute 'exists'") := by rw [hup, hfb]
  by_cases hi : env.imageResult.success <;>
    by_cases hv : env.voiceoverResult.success <;>
    by_cases hm : env.musicResult.success <;>
    by_cases ht : env.hubspotToken <;>
    by_cases hh : env.hubspotResult.success <;>
    simp [generate_and_publish, pipelineFromBrief, pipelineOptionalStages,
      pipelineCompose, pipelineFinish, pyStrOpt, hvp, h1, h2, h3, hclips,
      htc, hvs, hcompose, hi, hv, hm, ht, hh, hu1, hum]

/-- A fully successful mocked collaborator environment, specialized by
the concrete counterexamples and witnesses below. -/
def okPrompts : VideoPrompts :=
  { clip_1_prompt := some "c1", clip_2_prompt := some "c2",
    clip_3_prompt := some "c3", captions := some {} }

def okClips : StageResult :=
  { success := true,
    clip_paths := some ["/tmp/clip_1.mp4", "/tmp/clip_2.mp4", "/tmp/clip_3.mp4"],
    num_clips := some 3 }

def okUpload : StageResult :=
  { success := true, path := some "/gd/AI Generated Videos/T.mp4",
    url := some "Google Drive: AI Generated Videos/T.mp4" }

def envAllOk : Env :=
  { research := .ok (),
    selection := .ok {},
    videoPrompts := .ok okPrompts,
    clipsResult := okClips,
    titleCardPrompt := .ok "title card prompt",
    imageResult := { success := true, output_path := some "/tmp/title_card_100.png" },
    voScript := .ok "voiceover script",
    voiceoverResult := { success := true, audio_path := some "/tmp/voiceover_100.mp3" },
    musicPrompt := "uplifting corporate tech music",
    musicResult := { success := true, audio_path := some "/tmp/music_100.mp3" },
    composeResult := { success := true, output_path := some "/tmp/final_video_100.mp4" },
    mergeResult := { success := false, error := some "merge failed" },
    uploadResult := okUpload,
    hubspotResult := { success := true, file_url := some "https://hubspot.example/f" },
    hubspotToken := true }

/-- The environment of the C10 witness: the upload collaborator is the
real `upload_video` model in the no-sync-folder scenario. -/
def c10Env : Env :=
  { envAllOk with uploadResult :=
      (upload_video Char.isAlphanum "/home/u" "/tmp/final_video_100.mp4" "T"
        none none ["/tmp/final_video_100.mp4"]).1 }

theorem no_drive_upload_url_indistinguishable_witness :
    (generate_and_publish c10Env (some "T") none true 100).1.success = true ∧
    (generate_and_publish c10Env (some "T") none true 100).1.google_drive_url =
      none ∧
    ("Google Drive upload: " ++ ("Google Drive upload failed: " ++
        "'str' object has no attribute 'exists'")) ∈
      (generate_and_publish c10Env (some "T") none true 100).1.errors.getD [] ∧
    (generate_and_publish c10Env (some "T") none false 100).1.google_drive_url =
      none :=
  no_drive_upload_url_indistinguishable c10Env Char.isAlphanum "/home/u"
    "/tmp/final_video_100.mp4" "T" none none ["/tmp/final_video_100.mp4"]
    "T" none 100 _ "c1" "c2" "c3" "title card prompt" "voiceover script"
    (by decide)
    (by
      intro p hp
      simp [google_drive_paths] at hp
      rcases hp with rfl | rfl | rfl | rfl <;> decide)
    rfl rfl rfl rfl rfl rfl rfl rfl rfl

/-! ## Theorems: C7 (clip path naming discipline) -/

/-- The orchestrator's output directory for the clip-synthesis fan-out,
hard-coded `"/tmp"` (`video_generator.py`, line 114). -/
def clipOutputDir : String := "/tmp"

/-- The path the concurrent clip-synthesis task for 0-based index `i`
targets in a run stamped `timestamp`: the code derives it from the
fixed output directory and the clip index only (`veo_client.py`,
line 202; `video_generator.py`, lines 113-119) — the run timestamp,
although computed at line 113 and used for the title-card, voiceover,
music and final-video paths, does not enter the clip paths. -/
def runClipPath (timestamp i : Nat) : String :=
  clipOutputPath clipOutputDir i

/-- The naming discipline C7 asserts, stated from the spec's words:
clip paths are "namespaced per-clip-index and per-run-timestamp", so
tasks of two runs with different timestamps never target the same
path. -/
def clipPathsTimestampNamespaced : Prop :=
  ∀ ts1 ts2 i, ts1 ≠ ts2 → runClipPath ts1 i ≠ runClipPath ts2 i

/-- C7 counterexample: clip paths are not per-run-timestamp namespaced —
runs stamped 100 and 200 both write clip 1 to `/tmp/clip_1.mp4`. -/
theorem clip_paths_not_timestamp_namespaced :
    ¬ clipPathsTimestampNamespaced :=
  fun h => h 100 200 0 (by decide) rfl

/-- C7 amended: within a single pipeline run the three concurrent
clip-synthesis tasks target pairwise distinct, deterministically named
paths, namespaced per clip index under the fixed `/tmp` directory (and
each task's target is exactly `clipOutputPath clipOutputDir i`); the
run timestamp is not part of the clip names, so distinct runs reuse the
same paths. -/
theorem clip_paths_distinct_per_index (timestamp : Nat) :
    [runClipPath timestamp 0, runClipPath timestamp 1,
      runClipPath timestamp 2].Nodup ∧
    ∀ i, runClipPath timestamp i = clipOutputPath clipOutputDir i := by
  constructor
  · simp only [runClipPath]
    decide
  · intro i
    rfl

/-! ## Counterexamples: C1 and C2 -/

/-- The C1 counterexample environment: composition fails but the
fallback merge succeeds. -/
def okMergeFallback : StageResult :=
  { success := true, output_path := some "/tmp/final_video_100.mp4" }

def c1Env : Env :=
  { envAllOk with
    composeResult := { success := false, error := some "ffmpeg exploded" },
    mergeResult := okMergeFallback }

/-- C1 counterexample: in a run whose mandatory composition stage
returns a failed stage-result, the orchestrator does not stop — the
fallback merge succeeds, the returned report has `success = true`, and
the later upload and publish collaborators are still called. -/
theorem composition_failure_not_fatal_counterexample :
    c1Env.composeResult.success = false ∧
    (generate_and_publish c1Env (some "T") none true 100).1.success = true ∧
    Stage.driveUpload ∈ (generate_and_publish c1Env (some "T") none true 100).2 ∧
    Stage.hubspotPublish ∈
      (generate_and_publish c1Env (some "T") none true 100).2 ∧
    (generate_and_publish c1Env (some "T") none true 100).1.errors =
      some ["Video composition: ffmpeg exploded"] := by
  decide

/-- The C2 counterexample environment: every mandatory collaborator is
mocked to succeed and only the optional topic-selection stage fails
(its wrapper re-raises). -/
def c2Env : Env :=
  { envAllOk with selection := .error "Overloaded: Claude API error" }

/-- C2 counterexample: a run in which only the optional topic-selection
stage fails returns `success = false` and stops before every later
stage, instead of tolerating the optional failure. -/
theorem optional_topic_selection_aborts_counterexample :
    c2Env.clipsResult.success = true ∧
    c2Env.composeResult.success = true ∧
    (generate_and_publish c2Env none none true 100).1.success = false ∧
    (generate_and_publish c2Env none none true 100).1.errors =
      some ["Overloaded: Claude API error"] ∧
    (generate_and_publish c2Env none none true 100).2 =
      [Stage.researchTopics, Stage.selectTopic] := by
  decide

/-! ## Theorems: C1 (mandatory-stage failure propagation) -/

/-- When both `compose_final_video` and the fallback `merge_clips`
fail, every path through the rest of the pipeline returns a failure
report and never reaches the upload or publish collaborators. -/
lemma brief_compose_merge_fail (env : Env) (errors : List String)
    (st sf cta : String) (eb : List String) (publish : Bool) (ts : Nat)
    (trace : List Stage)
    (hc : env.composeResult.success = false)
    (hm : env.mergeResult.success = false)
    (ht1 : Stage.driveUpload ∉ trace)
    (ht2 : Stage.hubspotPublish ∉ trace) :
    (pipelineFromBrief env errors st sf eb cta publish ts trace).1.success =
      false ∧
    Stage.driveUpload ∉
      (pipelineFromBrief env errors st sf eb cta publish ts trace).2 ∧
    Stage.hubspotPublish ∉
      (pipelineFromBrief env errors st sf eb cta publish ts trace).2 := by
  cases hvp : env.videoPrompts with
  | error e => simp [pipelineFromBrief, hvp, workflowFailed, ht1, ht2]
  | ok vp =>
    rcases h1 : vp.clip_1_prompt with _ | c1p
    · simp [pipelineFromBrief, hvp, h1, workflowFailed, ht1, ht2]
    rcases h2 : vp.clip_2_prompt with _ | c2p
    · simp [pipelineFromBrief, hvp, h1, h2, workflowFailed, ht1, ht2]
    rcases h3 : vp.clip_3_prompt with _ | c3p
    · simp [pipelineFromBrief, hvp, h1, h2, h3, workflowFailed, ht1, ht2]
    by_cases hcr : env.clipsResult.success
    · cases htc : env.titleCardPrompt with
      | error e =>
        simp [pipelineFromBrief, pipelineOptionalStages, hvp, h1, h2, h3, hcr,
          htc, workflowFailed, ht1, ht2]
      | ok tcp =>
        cases hvs : env.voScript with
        | error e =>
          simp [pipelineFromBrief, pipelineOptionalStages, hvp, h1, h2, h3,
            hcr, htc, hvs, workflowFailed, ht1, ht2]
        | ok vos =>
          by_cases hcp : env.clipsResult.clip_paths.getD [] = [] <;>
            simp [pipelineFromBrief, pipelineOptionalStages, pipelineCompose,
              hvp, h1, h2, h3, hcr, htc, hvs, hc, hm, hcp, ht1, ht2]
    · have hcr2 : env.clipsResult.success = false := by simpa using hcr
      simp [pipelineFromBrief, hvp, h1, h2, h3, hcr2, ht1, ht2]

/-- C1 (amended): a failed creative-brief stage or clip-synthesis stage
aborts the run immediately — the report has `success = false`, the
stage's error is recorded, and no later collaborator is called.  A
failed composition stage first triggers the fallback `merge_clips` of
the raw clips: only if that also fails (or no clips exist) does the run
abort, never reaching upload or publish; if the fallback succeeds the
run continues, returns `success = true`, and the composition error is
merely appended to `errors`. -/
theorem mandatory_stage_failure_aborts (env : Env) (t : String)
    (cat : Option String) (publish : Bool) (ts : Nat) :
    (∀ e, env.videoPrompts = .error e →
      (generate_and_publish env (some t) cat publish ts).1 =
        workflowFailed [] e ∧
      (generate_and_publish env (some t) cat publish ts).2 =
        [Stage.genVideoPrompts]) ∧
    (∀ vp c1p c2p c3p, env.videoPrompts = .ok vp →
      vp.clip_1_prompt = some c1p → vp.clip_2_prompt = some c2p →
      vp.clip_3_prompt = some c3p → env.clipsResult.success = false →
      (generate_and_publish env (some t) cat publish ts).1 =
        { success := false,
          errors := some ["Video generation: " ++
            (env.clipsResult.error.getD "Unknown error generating clips")],
          message := some "Video generation failed" } ∧
      (generate_and_publish env (some t) cat publish ts).2 =
        [Stage.genVideoPrompts, Stage.genClips]) ∧
    (env.composeResult.success = false → env.mergeResult.success = false →
      (generate_and_publish env (some t) cat publish ts).1.success = false ∧
      Stage.driveUpload ∉ (generate_and_publish env (some t) cat publish ts).2 ∧
      Stage.hubspotPublish ∉
        (generate_and_publish env (some t) cat publish ts).2) ∧
    (∀ vp c1p c2p c3p tcp vos cps, env.videoPrompts = .ok vp →
      vp.clip_1_prompt = some c1p → vp.clip_2_prompt = some c2p →
      vp.clip_3_prompt = some c3p → env.clipsResult.success = true →
      env.clipsResult.clip_paths = some cps → cps ≠ [] →
      env.titleCardPrompt = .ok tcp → env.voScript = .ok vos →
      env.imageResult.success = true → env.voiceoverResult.success = true →
      env.musicResult.success = true → env.composeResult.success = false →
      env.mergeResult.success = true →
      (generate_and_publish env (some t) cat publish ts).1.success = true ∧
      ("Video composition: " ++
          (env.composeResult.error.getD "Unknown error composing video")) ∈
        (generate_and_publish env (some t) cat publish ts).1.errors.getD []) := by
  refine ⟨?_, ?_, ?_, ?_⟩
  · intro e hvp
    constructor <;> simp [generate_and_publish, pipelineFromBrief, hvp]
  · intro vp c1p c2p c3p hvp h1 h2 h3 hcf
    constructor <;>
      simp [generate_and_publish, pipelineFromBrief, hvp, h1, h2, h3, hcf]
  · intro hc hm
    have h := brief_compose_merge_fail env [] t (LENILANI_SERVICES.headD "")
      ("Visit " ++ company_website ++ " to learn more")
      ["Problem", "Solution", "Transformation"] publish ts [] hc hm
      (by simp) (by simp)
    simpa [generate_and_publish] using h
  · intro vp c1p c2p c3p tcp vos cps hvp h1 h2 h3 hcr hcp hne htc hvs hi hv
      hmu hc hm
    by_cases hp : publish <;>
      by_cases hu : env.uploadResult.success <;>
      by_cases hht : env.hubspotToken <;>
      by_cases hh : env.hubspotResult.success <;>
      constructor <;>
      simp [generate_and_publish, pipelineFromBrief, pipelineOptionalStages,
        pipelineCompose, pipelineFinish, hvp, h1, h2, h3, hcr, hcp, hne, htc,
        hvs, hi, hv, hmu, hc, hm, hp, hu, hht, hh]

/-- The C1 witness environment: clip synthesis fails. -/
def c1WitnessEnv : Env :=
  { envAllOk with
    clipsResult := { success := false, error := some "429 quota exceeded" } }

theorem mandatory_stage_failure_aborts_witness :
    (generate_and_publish c1WitnessEnv (some "T") none true 100).1 =
      { success := false,
        errors := some ["Video generation: 429 quota exceeded"],
        message := some "Video generation failed" } ∧
    (generate_and_publish c1WitnessEnv (some "T") none true 100).2 =
      [Stage.genVideoPrompts, Stage.genClips] :=
  (mandatory_stage_failure_aborts c1WitnessEnv "T" none true 100).2.1
    okPrompts "c1" "c2" "c3" rfl rfl rfl rfl rfl

/-! ## Theorems: C2 (optional-stage failure tolerance) -/

/-- C2 (amended): when every mandatory stage succeeds and one or more
of the stage-result-returning optional stages (title-card image,
voiceover audio, background music, upload, social publish) fail, the
report still has `success = true`, the failed stage's report field is
`None` (the voiceover/music artifacts never appear in the report at
all, which Python's `dict.get` also reads as `None`), and each failure
appears as a string in `errors`.  A failure of the optional
topic-selection stage (or of any other LLM text sub-call, which
re-raise) instead aborts the whole run with `success = false` — see the
counterexample. -/
theorem optional_stage_failures_tolerated (env : Env) (t : String)
    (cat : Option String) (publish : Bool) (ts : Nat) (vp : VideoPrompts)
    (c1p c2p c3p tcp vos : String)
    (hvp : env.videoPrompts = .ok vp)
    (h1 : vp.clip_1_prompt = some c1p) (h2 : vp.clip_2_prompt = some c2p)
    (h3 : vp.clip_3_prompt = some c3p)
    (hcr : env.clipsResult.success = true)
    (htc : env.titleCardPrompt = .ok tcp)
    (hvs : env.voScript = .ok vos)
    (hc : env.composeResult.success = true) :
    (generate_and_publish env (some t) cat publish ts).1.success = true ∧
    (env.imageResult.success = false →
      (generate_and_publish env (some t) cat publish ts).1.title_card_path =
        none ∧
      ("Title card: " ++
          (env.imageResult.error.getD "Unknown error generating title card")) ∈
        (generate_and_publish env (some t) cat publish ts).1.errors.getD []) ∧
    (env.voiceoverResult.success = false →
      ("Voiceover: " ++
          (env.voiceoverResult.error.getD "Unknown error generating voiceover")) ∈
        (generate_and_publish env (some t) cat publish ts).1.errors.getD []) ∧
    (env.musicResult.success = false →
      ("Background music: " ++
          (env.musicResult.error.getD "Unknown error generating music")) ∈
        (generate_and_publish env (some t) cat publish ts).1.errors.getD []) ∧
    (publish = true → env.uploadResult.success = false →
      (generate_and_publish env (some t) cat publish ts).1.google_drive_url =
        none ∧
      ("Google Drive upload: " ++ pyStrOpt env.uploadResult.message) ∈
        (generate_and_publish env (some t) cat publish ts).1.errors.getD []) ∧
    (publish = true → env.hubspotToken = true →
      env.hubspotResult.success = false →
      (generate_and_publish env (some t) cat publish ts).1.youtube_url =
        none ∧
      ("YouTube publishing: " ++ pyStrOpt env.hubspotResult.message) ∈
        (generate_and_publish env (some t) cat publish ts).1.errors.getD []) := by
  by_cases hi : env.imageResult.success <;>
    by_cases hv : env.voiceoverResult.success <;>
    by_cases hmu : env.musicResult.success <;>
    by_cases hp : publish <;>
    by_cases hht : env.hubspotToken <;>
    by_cases hu : env.uploadResult.success <;>
    by_cases hh : env.hubspotResult.success <;>
    simp [generate_and_publish, pipelineFromBrief, pipelineOptionalStages,
      pipelineCompose, pipelineFinish, hvp, h1, h2, h3, hcr, htc, hvs, hc,
      hi, hv, hmu, hp, hht, hu, hh]

/-- The C2 witness environment: every mandatory collaborator succeeds
and all five stage-result-returning optional stages fail. -/
def c2WitnessEnv : Env :=
  { envAllOk with
    imageResult := { success := false, error := some "imagen quota" },
    voiceoverResult := { success := false, error := some "tts down" },
    musicResult := { success := false, error := some "sfx down" },
    uploadResult := { success := false, message := some "copy failed" },
    hubspotResult := { success := false, message := some "token expired" } }

theorem optional_stage_failures_tolerated_witness :
    (generate_and_publish c2WitnessEnv (some "T") none true 100).1.success =
      true ∧
    (generate_and_publish c2WitnessEnv (some "T") none true 100).1.title_card_path =
      none ∧
    "Title card: imagen quota" ∈
      (generate_and_publish c2WitnessEnv (some "T") none true 100).1.errors.getD [] ∧
    (generate_and_publish c2WitnessEnv (some "T") none true 100).1.google_drive_url =
      none ∧
    "Google Drive upload: copy failed" ∈
      (generate_and_publish c2WitnessEnv (some "T") none true 100).1.errors.getD [] := by
  have h := optional_stage_failures_tolerated c2WitnessEnv "T" none true 100
    okPrompts "c1" "c2" "c3" "title card prompt" "voiceover script"
    rfl rfl rfl rfl rfl rfl rfl rfl
  exact ⟨h.1, (h.2.1 rfl).1, (h.2.1 rfl).2, (h.2.2.2.2.1 rfl rfl).1,
    (h.2.2.2.2.1 rfl rfl).2⟩

/-! ## Theorems: C3 (all-or-nothing concurrent clip synthesis) -/

/-- A successful `generate_video_clip_loop` run with a requested output
path echoes that path and has written exactly it. -/
lemma clip_loop_success (attempts : Nat → AttemptOutcome) (mr dur : Nat)
    (p : String) :
    ∀ (n k : Nat) (le : Option String),
      (generate_video_clip_loop attempts mr dur (some p) k le n).1.success =
        true →
      (generate_video_clip_loop attempts mr dur (some p) k le n).1.output_path =
        some p ∧
      (generate_video_clip_loop attempts mr dur (some p) k le n).2 = [p] := by
  intro n
  induction n with
  | zero => intro k le h; simp [generate_video_clip_loop] at h
  | succ n ih =>
    intro k le h
    cases hA : attempts k with
    | raised msg =>
      simp only [generate_video_clip_loop, hA] at h ⊢
      by_cases hk : k < mr - 1
      · simp only [if_pos hk] at h ⊢
        exact ih (k + 1) (some msg) h
      · simp [if_neg hk] at h
    | opError code msg =>
      simp only [generate_video_clip_loop, hA] at h ⊢
      by_cases hk13 : code = some 13 ∧ k < mr - 1
      · simp only [if_pos hk13] at h ⊢
        exact ih (k + 1) (some msg) h
      · simp only [if_neg hk13] at h ⊢
        by_cases hk : k < mr - 1
        · simp only [if_pos hk] at h ⊢
          exact ih (k + 1) _ h
        · simp [if_neg hk] at h
    | noVideo =>
      simp only [generate_video_clip_loop, hA] at h ⊢
      by_cases hk : k < mr - 1
      · simp only [if_pos hk] at h ⊢
        exact ih (k + 1) _ h
      · simp [if_neg hk] at h
    | video uri data =>
      simp [generate_video_clip_loop, hA]

/-- `generate_video_clip` with a requested output path: success implies
the result echoes the path and the file was written. -/
lemma generate_video_clip_success (attempts : Nat → AttemptOutcome)
    (prompt : String) (dur : Nat) (p : String) (mr : Nat)
    (h : (generate_video_clip attempts prompt dur (some p) mr).1.success =
      true) :
    (generate_video_clip attempts prompt dur (some p) mr).1.output_path =
      some p ∧
    (generate_video_clip attempts prompt dur (some p) mr).2 = [p] :=
  clip_loop_success attempts mr dur p mr 0 none h

/-- The result of the clip-synthesis sub-call for index `i` (the prompt
string does not influence the modelled result, so it is canonically
empty here). -/
def clipCallResult (attemptsFor : Nat → Nat → AttemptOutcome)
    (output_dir : String) (i : Nat) : StageResult × List String :=
  generate_video_clip (attemptsFor i) "" clip_duration
    (some (clipOutputPath output_dir i)) 3

/-- The modelled result of `generate_video_clip` ignores the prompt
text (it only feeds the external collaborator). -/
lemma generate_video_clip_prompt_irrel (attempts : Nat → AttemptOutcome)
    (p q : String) (dur : Nat) (o : Option String) (mr : Nat) :
    generate_video_clip attempts p dur o mr =
      generate_video_clip attempts q dur o mr := rfl

lemma collectClips_cons_succ (j : Nat) (r : StageResult)
    (rs : List StageResult) (hs : r.success = true) (pth : String)
    (hp : r.output_path = some pth) :
    collectClips j (r :: rs) =
      (collectClips (j + 1) rs).map (fun ps => pth :: ps) := by
  simp [collectClips, hs, hp]

lemma collectClips_cons_fail (j : Nat) (r : StageResult)
    (rs : List StageResult) (hs : r.success = false) :
    collectClips j (r :: rs) =
      .error ("Clip " ++ toString (j + 1) ++ " generation failed",
        r.message) := by
  simp [collectClips, hs]

/-- Fan-in success: if every sub-call succeeds, `collectClips` returns
the per-index output paths in order. -/
lemma multiClip_collect_ok (attemptsFor : Nat → Nat → AttemptOutcome)
    (output_dir : String) :
    ∀ (ps : List String) (i j : Nat),
      (∀ m, m < ps.length →
        (clipCallResult attemptsFor output_dir (i + m)).1.success = true) →
      collectClips j
          ((multiClipResults attemptsFor output_dir i ps).map Prod.fst) =
        .ok ((List.range ps.length).map
          (fun m => clipOutputPath output_dir (i + m))) := by
  intro ps
  induction ps with
  | nil => intro i j _; simp [multiClipResults, collectClips]
  | cons p ps ih =>
    intro i j h
    have hs : (generate_video_clip (attemptsFor i) p clip_duration
        (some (clipOutputPath output_dir i)) 3).1.success = true := by
      have h0 := h 0 (by simp)
      rw [generate_video_clip_prompt_irrel (attemptsFor i) p ""]
      simpa [clipCallResult] using h0
    have hpath := generate_video_clip_success (attemptsFor i) p clip_duration
      (clipOutputPath output_dir i) 3 hs
    have hrec := ih (i + 1) (j + 1) (fun m hm => by
      have hsm := h (m + 1) (by simpa using Nat.succ_lt_succ hm)
      have heq : i + (m + 1) = (i + 1) + m := by omega
      rw [heq] at hsm
      exact hsm)
    simp only [multiClipResults, List.map_cons]
    rw [collectClips_cons_succ j _ _ hs _ hpath.1, hrec]
    simp only [Except.map]
    congr 1
    simp only [List.length_cons]
    rw [List.range_succ_eq_map, List.map_cons, List.map_map, Nat.add_zero]
    congr 1
    apply List.map_congr_left
    intro m _
    simp only [Function.comp]
    congr 1
    omega

/-- Fan-in failure: if some sub-call fails, `collectClips` returns an
error. -/
lemma multiClip_collect_fail (attemptsFor : Nat → Nat → AttemptOutcome)
    (output_dir : String) :
    ∀ (ps : List String) (i j : Nat),
      (∃ m, m < ps.length ∧
        (clipCallResult attemptsFor output_dir (i + m)).1.success = false) →
      ∃ em, collectClips j
          ((multiClipResults attemptsFor output_dir i ps).map Prod.fst) =
        .error em := by
  intro ps
  induction ps with
  | nil => rintro i j ⟨m, hm, _⟩; simp at hm
  | cons p ps ih =>
    rintro i j ⟨m, hm, hfail⟩
    by_cases hs : (generate_video_clip (attemptsFor i) p clip_duration
        (some (clipOutputPath output_dir i)) 3).1.success = true
    · have hm1 : m ≠ 0 := by
        rintro rfl
        rw [generate_video_clip_prompt_irrel (attemptsFor i) p ""] at hs
        rw [Nat.add_zero] at hfail
        rw [clipCallResult] at hfail
        rw [hs] at hfail
        exact Bool.noConfusion hfail
      obtain ⟨m', rfl⟩ : ∃ m', m = m' + 1 := ⟨m - 1, by omega⟩
      obtain ⟨em, hem⟩ := ih (i + 1) (j + 1)
        ⟨m', by simpa using Nat.lt_of_succ_lt_succ hm, by
          have heq : i + (m' + 1) = (i + 1) + m' := by omega
          rw [heq] at hfail
          exact hfail⟩
      have hpath := generate_video_clip_success (attemptsFor i) p
        clip_duration (clipOutputPath output_dir i) 3 hs
      refine ⟨em, ?_⟩
      simp only [multiClipResults, List.map_cons]
      rw [collectClips_cons_succ j _ _ hs _ hpath.1, hem]
      rfl
    · have hs2 : (generate_video_clip (attemptsFor i) p clip_duration
          (some (clipOutputPath output_dir i)) 3).1.success = false := by
        simpa using hs
      refine ⟨("Clip " ++ toString (j + 1) ++ " generation failed",
        (generate_video_clip (attemptsFor i) p clip_duration
          (some (clipOutputPath output_dir i)) 3).1.message), ?_⟩
      simp only [multiClipResults, List.map_cons]
      exact collectClips_cons_fail j _ _ hs2

/-- With a failed clip-synthesis stage result, `pipelineFromBrief`
always returns a failure and its trace stops at (or before) the clip
stage. -/
lemma brief_clips_fail (env : Env) (errors : List String)
    (st sf cta : String) (eb : List String) (publish : Bool) (ts : Nat)
    (trace : List Stage) (h : env.clipsResult.success = false) :
    (pipelineFromBrief env errors st sf eb cta publish ts trace).1.success =
      false ∧
    ((pipelineFromBrief env errors st sf eb cta publish ts trace).2 =
        trace ++ [Stage.genVideoPrompts] ∨
      (pipelineFromBrief env errors st sf eb cta publish ts trace).2 =
        trace ++ [Stage.genVideoPrompts, Stage.genClips]) := by
  cases hvp : env.videoPrompts with
  | error e =>
    exact ⟨by simp [pipelineFromBrief, hvp, workflowFailed],
      Or.inl (by simp [pipelineFromBrief, hvp])⟩
  | ok vp =>
    rcases h1 : vp.clip_1_prompt with _ | c1p
    · exact ⟨by simp [pipelineFromBrief, hvp, h1, workflowFailed],
        Or.inl (by simp [pipelineFromBrief, hvp, h1])⟩
    rcases h2 : vp.clip_2_prompt with _ | c2p
    · exact ⟨by simp [pipelineFromBrief, hvp, h1, h2, workflowFailed],
        Or.inl (by simp [pipelineFromBrief, hvp, h1, h2])⟩
    rcases h3 : vp.clip_3_prompt with _ | c3p
    · exact ⟨by simp [pipelineFromBrief, hvp, h1, h2, h3, workflowFailed],
        Or.inl (by simp [pipelineFromBrief, hvp, h1, h2, h3])⟩
    exact ⟨by simp [pipelineFromBrief, hvp, h1, h2, h3, h],
      Or.inr (by simp [pipelineFromBrief, hvp, h1, h2, h3, h])⟩

/-- With a failed clip-synthesis stage result, every pipeline run
returns a failure report and calls no collaborator after the clip
stage. -/
lemma clips_fail_no_later_stages (env : Env) (topic cat : Option String)
    (publish : Bool) (ts : Nat) (h : env.clipsResult.success = false) :
    (generate_and_publish env topic cat publish ts).1.success = false ∧
    ∀ s ∈ (generate_and_publish env topic cat publish ts).2,
      s = Stage.researchTopics ∨ s = Stage.selectTopic ∨
      s = Stage.genVideoPrompts ∨ s = Stage.genClips := by
  cases topic with
  | some t =>
    have hb := brief_clips_fail env [] t (LENILANI_SERVICES.headD "")
      ("Visit " ++ company_website ++ " to learn more")
      ["Problem", "Solution", "Transformation"] publish ts [] h
    constructor
    · simpa [generate_and_publish] using hb.1
    · intro s hs
      simp only [generate_and_publish] at hs
      rcases hb.2 with htr | htr <;> rw [htr] at hs <;> simp at hs <;> tauto
  | none =>
    cases hr : env.research with
    | error e =>
      constructor
      · simp [generate_and_publish, hr, workflowFailed]
      · intro s hs
        simp [generate_and_publish, hr] at hs
        tauto
    | ok u =>
      cases hsel : env.selection with
      | error e =>
        constructor
        · simp [generate_and_publish, hr, hsel, workflowFailed]
        · intro s hs
          simp [generate_and_publish, hr, hsel] at hs
          tauto
      | ok sel =>
        have hb := brief_clips_fail env []
          (sel.selected_topic.getD "AI for Hawaii Businesses")
          (sel.service_alignment.getD (LENILANI_SERVICES.headD ""))
          (sel.cta.getD ("Visit " ++ company_website))
          (sel.emotional_beats.getD ["Hook", "Solution", "Impact"])
          publish ts [Stage.researchTopics, Stage.selectTopic] h
        constructor
        · simpa [generate_and_publish, hr, hsel] using hb.1
        · intro s hs
          simp only [generate_and_publish, hr, hsel] at hs
          rcases hb.2 with htr | htr <;> rw [htr] at hs <;> simp at hs <;>
            tauto

/-- The fan-out stage succeeds iff every sub-call succeeds. -/
lemma multi_clip_success_iff (attemptsFor : Nat → Nat → AttemptOutcome)
    (prompts : List String) (dir : String) :
    (generate_multi_clip_video attemptsFor prompts dir).1.success = true ↔
      ∀ i, i < prompts.length →
        (clipCallResult attemptsFor dir i).1.success = true := by
  constructor
  · intro hsucc i hi
    by_contra hneg
    have hfail : (clipCallResult attemptsFor dir i).1.success = false := by
      simpa using hneg
    obtain ⟨em, hem⟩ := multiClip_collect_fail attemptsFor dir prompts 0 0
      ⟨i, hi, by simpa using hfail⟩
    have hf : (generate_multi_clip_video attemptsFor prompts dir).1.success =
        false := by
      simp only [generate_multi_clip_video]
      rw [hem]
    rw [hsucc] at hf
    exact Bool.noConfusion hf
  · intro hall
    have hok := multiClip_collect_ok attemptsFor dir prompts 0 0
      (fun m hm => by simpa using hall m hm)
    simp only [generate_multi_clip_video]
    rw [hok]

/-- On fan-out success the returned `clip_paths` lists the per-index
paths in prompt order, one per prompt. -/
lemma multi_clip_paths_on_success (attemptsFor : Nat → Nat → AttemptOutcome)
    (prompts : List String) (dir : String)
    (h : (generate_multi_clip_video attemptsFor prompts dir).1.success =
      true) :
    (generate_multi_clip_video attemptsFor prompts dir).1.clip_paths =
      some ((List.range prompts.length).map (clipOutputPath dir)) := by
  have hall := (multi_clip_success_iff attemptsFor prompts dir).mp h
  have hok := multiClip_collect_ok attemptsFor dir prompts 0 0
    (fun m hm => by simpa using hall m hm)
  simp only [generate_multi_clip_video]
  rw [hok]
  simp only [Nat.zero_add]

/-- C3: `generate_multi_clip_video` returns `success = true` iff every
one of its N concurrent sub-calls succeeds; on success the returned
`clip_paths` has exactly N entries in prompt order
(`clip_{i+1}.mp4` under the output directory); and if any sub-call
fails, the stage result is a failure and the orchestrator calls no
stage after clip synthesis. -/
theorem multi_clip_all_or_nothing (attemptsFor : Nat → Nat → AttemptOutcome)
    (prompts : List String) (dir : String) :
    ((generate_multi_clip_video attemptsFor prompts dir).1.success = true ↔
      ∀ i, i < prompts.length →
        (clipCallResult attemptsFor dir i).1.success = true) ∧
    ((generate_multi_clip_video attemptsFor prompts dir).1.success = true →
      (generate_multi_clip_video attemptsFor prompts dir).1.clip_paths =
        some ((List.range prompts.length).map (clipOutputPath dir))) ∧
    ((generate_multi_clip_video attemptsFor prompts dir).1.success = false →
      ∀ (env : Env) (topic cat : Option String) (publish : Bool) (ts : Nat),
        env.clipsResult = (generate_multi_clip_video attemptsFor prompts dir).1 →
        (generate_and_publish env topic cat publish ts).1.success = false ∧
        ∀ s ∈ (generate_and_publish env topic cat publish ts).2,
          s = Stage.researchTopics ∨ s = Stage.selectTopic ∨
          s = Stage.genVideoPrompts ∨ s = Stage.genClips) := by
  refine ⟨multi_clip_success_iff attemptsFor prompts dir,
    multi_clip_paths_on_success attemptsFor prompts dir, ?_⟩
  intro hfail env topic cat publish ts henv
  exact clips_fail_no_later_stages env topic cat publish ts
    (by rw [henv]; exact hfail)

/-- An attempt oracle whose every sub-call yields a video. -/
def afAllOk : Nat → Nat → AttemptOutcome := fun _ _ => .video "uri" 7

/-- An attempt oracle where sub-call #2 (index 1) always raises and the
others yield videos — the spec's three-prompt failure scenario. -/
def afClip2Fails : Nat → Nat → AttemptOutcome := fun i _ =>
  if i = 1 then .raised "boom" else .video "uri" 7

/-- The environment of the C3 witness: the clip stage result is the
real fan-out model on `afClip2Fails`. -/
def c3WitnessEnv : Env :=
  { envAllOk with clipsResult :=
      (generate_multi_clip_video afClip2Fails ["a", "b", "c"] "/tmp").1 }

theorem multi_clip_all_or_nothing_witness :
    (generate_multi_clip_video afAllOk ["a", "b", "c"] "/tmp").1.clip_paths =
      some ["/tmp/clip_1.mp4", "/tmp/clip_2.mp4", "/tmp/clip_3.mp4"] ∧
    (generate_and_publish c3WitnessEnv (some "T") none true 100).1.success =
      false ∧
    ∀ s ∈ (generate_and_publish c3WitnessEnv (some "T") none true 100).2,
      s = Stage.researchTopics ∨ s = Stage.selectTopic ∨
      s = Stage.genVideoPrompts ∨ s = Stage.genClips := by
  refine ⟨?_, ?_⟩
  · have h := (multi_clip_all_or_nothing afAllOk ["a", "b", "c"] "/tmp").2.1
      (by decide)
    exact h.trans (by decide)
  · exact (multi_clip_all_or_nothing afClip2Fails ["a", "b", "c"] "/tmp").2.2
      (by decide) c3WitnessEnv (some "T") none true 100 rfl

/-! ## Theorems: C8 (stage-result invariants of the wrappers) -/

/-- A string with a non-empty left part stays non-empty under
append. -/
lemma str_append_left_ne (a b : String) (h : a ≠ "") : a ++ b ≠ "" := by
  intro hab
  apply h
  have hlen : a.length + b.length = 0 := by
    rw [← String.length_append, hab]
    rfl
  have ha : a.data.length = 0 := by
    have h0 : a.length = 0 := by omega
    exact h0
  cases hd : a.data with
  | nil => exact String.ext (by simp [hd])
  | cons c cs => rw [hd] at ha; simp at ha

/-- A failed `generate_video_clip_loop` carries a non-empty error
string, provided every collaborator exception text is non-empty.  The
invariant `k + n = max_retries` ties the fuel to the Python loop bound;
`1 ≤ n ∨ pyStrOpt le ≠ ""` holds initially (`le = none` stringifies to
`"None"`) and is maintained. -/
lemma clip_loop_failure_error (attempts : Nat → AttemptOutcome)
    (mr dur : Nat) (op : Option String)
    (hmsg : ∀ m msg, attempts m = .raised msg → msg ≠ "") :
    ∀ (n k : Nat) (le : Option String), k + n = mr →
      (1 ≤ n ∨ pyStrOpt le ≠ "") →
      (generate_video_clip_loop attempts mr dur op k le n).1.success =
        false →
      ∃ e, (generate_video_clip_loop attempts mr dur op k le n).1.error =
        some e ∧ e ≠ "" := by
  intro n
  induction n with
  | zero =>
    intro k le hkn hinv _
    refine ⟨pyStrOpt le, rfl, ?_⟩
    rcases hinv with h1 | h2
    · omega
    · exact h2
  | succ n ih =>
    intro k le hkn hinv hfail
    cases hA : attempts k with
    | raised msg =>
      have hm := hmsg k msg hA
      simp only [generate_video_clip_loop, hA] at hfail ⊢
      by_cases hk : k < mr - 1
      · simp only [if_pos hk] at hfail ⊢
        exact ih (k + 1) (some msg) (by omega) (Or.inr hm) hfail
      · simp only [if_neg hk]
        exact ⟨msg, rfl, hm⟩
    | opError code msg =>
      simp only [generate_video_clip_loop, hA] at hfail ⊢
      by_cases hk13 : code = some 13 ∧ k < mr - 1
      · simp only [if_pos hk13] at hfail ⊢
        exact ih (k + 1) (some msg) (by omega)
          (Or.inl (by omega)) hfail
      · simp only [if_neg hk13] at hfail ⊢
        by_cases hk : k < mr - 1
        · simp only [if_pos hk] at hfail ⊢
          exact ih (k + 1) (some ("Video generation failed: " ++ msg))
            (by omega)
            (Or.inr (by
              simp only [pyStrOpt]
              exact str_append_left_ne "Video generation failed: " msg
                (by decide)))
            hfail
        · simp only [if_neg hk]
          exact ⟨"Video generation failed: " ++ msg, rfl,
            str_append_left_ne "Video generation failed: " msg (by decide)⟩
    | noVideo =>
      simp only [generate_video_clip_loop, hA] at hfail ⊢
      by_cases hk : k < mr - 1
      · simp only [if_pos hk] at hfail ⊢
        exact ih (k + 1) (some "No video in operation response") (by omega)
          (Or.inr (by decide)) hfail
      · simp only [if_neg hk]
        exact ⟨"No video in operation response", rfl, by decide⟩
    | video uri data =>
      cases op with
      | some p => simp [generate_video_clip_loop, hA] at hfail
      | none => simp [generate_video_clip_loop, hA] at hfail

/-- C8: every stage-result produced by the modelled external-call
wrappers satisfies the invariant — if `success` is true the artifact
field is non-null and the named file exists on disk afterwards; if
`success` is false the `error` field is a non-empty string.  For
`generate_video_clip` the non-emptiness relies on the collaborator's
exception texts being non-empty; for `merge_clips` the file-existence
part relies on the media-processing collaborator's contract that an
exit code of zero produced the output file; for `upload_video` it
relies on the copy/write exception texts being non-empty, while the
`AttributeError` raised on the plain-string sync-folder candidates
carries its fixed non-empty text. -/
theorem stage_result_invariants :
    (∀ (attempts : Nat → AttemptOutcome) (prompt : String) (dur : Nat)
        (p : String) (mr : Nat),
      (∀ m msg, attempts m = .raised msg → msg ≠ "") →
      ((generate_video_clip attempts prompt dur (some p) mr).1.success =
          true →
        (generate_video_clip attempts prompt dur (some p) mr).1.output_path =
          some p ∧
        p ∈ (generate_video_clip attempts prompt dur (some p) mr).2) ∧
      ((generate_video_clip attempts prompt dur (some p) mr).1.success =
          false →
        ∃ e, (generate_video_clip attempts prompt dur (some p) mr).1.error =
          some e ∧ e ≠ "")) ∧
    (∀ (clips : List String) (out : String) (ff : FfmpegOutcome)
        (ffW fs : List String),
      (∀ stderr, ff = .ran 0 stderr → out ∈ ffW) →
      ((merge_clips clips out ff ffW fs).1.success = true →
        (merge_clips clips out ff ffW fs).1.output_path = some out ∧
        out ∈ (merge_clips clips out ff ffW fs).2) ∧
      ((merge_clips clips out ff ffW fs).1.success = false →
        ∃ e, (merge_clips clips out ff ffW fs).1.error = some e ∧ e ≠ "")) ∧
    (∀ (isalnum : Char → Bool) (home vp title : String) (d : Option String)
        (ioExc : Option String) (fs : List String),
      (∀ msg, ioExc = some msg → msg ≠ "") →
      ((upload_video isalnum home vp title d ioExc fs).1.success = true →
        ∃ pth, (upload_video isalnum home vp title d ioExc fs).1.path =
            some pth ∧
          pth ∈ (upload_video isalnum home vp title d ioExc fs).2) ∧
      ((upload_video isalnum home vp title d ioExc fs).1.success = false →
        ∃ e, (upload_video isalnum home vp title d ioExc fs).1.error =
          some e ∧ e ≠ "")) := by
  refine ⟨?_, ?_, ?_⟩
  · intro attempts prompt dur p mr hmsg
    constructor
    · intro hs
      have h := generate_video_clip_success attempts prompt dur p mr hs
      exact ⟨h.1, by rw [h.2]; simp⟩
    · intro hf
      exact clip_loop_failure_error attempts mr dur (some p) hmsg mr 0 none
        (by omega) (Or.inr (by decide)) hf
  · intro clips out ff ffW fs hff
    cases hfind : clips.find? (fun q => !decide (q ∈ fs)) with
    | some q =>
      constructor
      · intro hs
        simp [merge_clips, hfind] at hs
      · intro _
        refine ⟨"Clip not found: " ++ q, by simp [merge_clips, hfind], ?_⟩
        exact str_append_left_ne "Clip not found: " q (by decide)
    | none =>
      cases ff with
      | timedOut =>
        constructor
        · intro hs
          simp [merge_clips, hfind] at hs
        · intro _
          exact ⟨"Operation timeout", by simp [merge_clips, hfind], by decide⟩
      | ran ec stderr =>
        by_cases hec : ec = 0
        · subst hec
          constructor
          · intro _
            refine ⟨by simp [merge_clips, hfind], ?_⟩
            have hmem := hff stderr rfl
            simp [merge_clips, hfind, List.mem_append, hmem]
          · intro hf
            simp [merge_clips, hfind] at hf
        · constructor
          · intro hs
            simp [merge_clips, hfind, hec] at hs
          · intro _
            refine ⟨"FFmpeg failed: " ++ stderr,
              by simp [merge_clips, hfind, hec], ?_⟩
            exact str_append_left_ne "FFmpeg failed: " stderr (by decide)
  · intro isalnum home vp title d ioExc fs hio
    by_cases hv : vp ∈ fs
    · cases hdrv : findDrivePath fs (google_drive_paths home) with
      | error e =>
        have he : e = "'str' object has no attribute 'exists'" :=
          findDrivePath_error_eq fs (google_drive_paths home) e hdrv
        constructor
        · intro hs
          simp [upload_video, hv, hdrv] at hs
        · intro _
          refine ⟨e, by simp [upload_video, hv, hdrv], ?_⟩
          rw [he]
          decide
      | ok o =>
        cases o with
        | none =>
          cases ioExc with
          | some msg =>
            constructor
            · intro hs
              simp [upload_video, hv, hdrv] at hs
            · intro _
              exact ⟨msg, by simp [upload_video, hv, hdrv], hio msg rfl⟩
          | none =>
            constructor
            · intro _
              refine ⟨"/tmp/ai_generated_videos/" ++
                  sanitizeTitle isalnum title ++ ".mp4",
                by simp [upload_video, hv, hdrv],
                by simp [upload_video, hv, hdrv]⟩
            · intro hf
              simp [upload_video, hv, hdrv] at hf
        | some dp =>
          cases ioExc with
          | some msg =>
            constructor
            · intro hs
              simp [upload_video, hv, hdrv] at hs
            · intro _
              exact ⟨msg, by simp [upload_video, hv, hdrv], hio msg rfl⟩
          | none =>
            constructor
            · intro _
              cases d with
              | none => simp [upload_video, hv, hdrv]
              | some txt => simp [upload_video, hv, hdrv]
            · intro hf
              simp [upload_video, hv, hdrv] at hf
    · constructor
      · intro hs
        simp [upload_video, hv] at hs
      · intro _
        refine ⟨"Video not found: " ++ vp, by simp [upload_video, hv], ?_⟩
        exact str_append_left_ne "Video not found: " vp (by decide)

/-- A clip-synthesis attempt oracle that always yields a video. -/
def c8ClipAttempts : Nat → AttemptOutcome := fun _ => .video "uri" 9

theorem stage_result_invariants_witness :
    ((generate_video_clip c8ClipAttempts "p" 8
        (some "/tmp/clip_1.mp4") 3).1.output_path = some "/tmp/clip_1.mp4" ∧
      "/tmp/clip_1.mp4" ∈
        (generate_video_clip c8ClipAttempts "p" 8
          (some "/tmp/clip_1.mp4") 3).2) ∧
    ((merge_clips ["/tmp/a.mp4"] "/tmp/out.mp4" (.ran 0 "")
        ["/tmp/out.mp4"] ["/tmp/a.mp4"]).1.output_path =
          some "/tmp/out.mp4" ∧
      "/tmp/out.mp4" ∈
        (merge_clips ["/tmp/a.mp4"] "/tmp/out.mp4" (.ran 0 "")
          ["/tmp/out.mp4"] ["/tmp/a.mp4"]).2) ∧
    (∃ e, (upload_video Char.isAlphanum "/h" "/tmp/v.mp4" "T" none none
        []).1.error = some e ∧ e ≠ "") := by
  refine ⟨?_, ?_, ?_⟩
  · exact (stage_result_invariants.1 c8ClipAttempts "p" 8 "/tmp/clip_1.mp4" 3
      (fun m msg h => by simp [c8ClipAttempts] at h)).1 rfl
  · exact (stage_result_invariants.2.1 ["/tmp/a.mp4"] "/tmp/out.mp4"
      (.ran 0 "") ["/tmp/out.mp4"] ["/tmp/a.mp4"] (fun _ _ => by simp)).1 rfl
  · exact (stage_result_invariants.2.2 Char.isAlphanum "/h" "/tmp/v.mp4" "T"
      none none [] (fun msg h => nomatch h)).2 rfl
